import Mathlib

/-!
# Verification of the click command/parameter resolution pipeline

Shallow embedding of the parts of `src/click/core.py` and
`src/click/shell_completion.py` that the checked claims are about, together
with proofs settling each claim.

Python values that can flow through parameter defaults, flag values and
resolved parameter values are embedded as `PyValue`.  Python code that can
raise is embedded with `Except`.  Parts of the repository that are not
present under `src/` (notably `parser.py`, `types.py`, `exceptions.py` and
several methods of `core.py` that are only called there) are modelled from
the specification; each such definition carries a doc comment starting with
`Modelled from the spec:`.
-/

namespace Click

/-- Embedding of the Python values relevant to parameter handling:
`None`, booleans, strings, integers and tuples. -/
inductive PyValue where
  | none
  | bool (b : Bool)
  | str (s : String)
  | int (n : Int)
  | tuple (xs : List PyValue)
deriving Repr

/-- Python `v is None`. -/
def PyValue.isNone : PyValue → Bool
  | .none => true
  | _ => false

/-- Python truthiness of a `PyValue` (`bool(v)`): `None`, `False`, `""`,
`0` and `()` are falsy, everything else is truthy. -/
def pyTruthy : PyValue → Bool
  | .none => false
  | .bool b => b
  | .str s => s != ""
  | .int n => n != 0
  | .tuple xs => !xs.isEmpty

/-- Python `not v` as a `PyValue` (`not` always returns a `bool`). -/
def pyNot (v : PyValue) : PyValue := .bool (!pyTruthy v)

/-- Attribute record of a constructed `Parameter` (`Parameter.__init__`,
core.py lines 1380-1422), restricted to the attributes the claims are
about.  `default` is the `self.default` attribute (Python `None` is
`PyValue.none`); callable defaults are outside the embedded fragment.
`param_type_name` is `"parameter"`, `"option"` or `"argument"` as in the
source class attribute. -/
structure Param where
  name : String
  opts : List String := []
  secondary_opts : List String := []
  param_type_name : String := "parameter"
  required : Bool := false
  default : PyValue := .none
  nargs : Int := 1
  multiple : Bool := false
  is_eager : Bool := false
  expose_value : Bool := true
  envvar : Option String := Option.none
  is_flag : Bool := false
  flag_value : PyValue := .none
  hasPrompt : Bool := false
  hasHelpCallback : Bool := false
  customComplete : Option (List String) := Option.none
deriving Repr

/-- The slice of a constructed `Context` that value resolution reads
(`Context.__init__`, core.py lines 202-260): the default map and the
resilient-parsing flag. -/
structure Ctx where
  default_map : Option (List (String × PyValue)) := Option.none
  resilient_parsing : Bool := false
deriving Repr

/-- `Context.lookup_default` (core.py lines 462-477): `default_map.get(name)`
if a default map is present, else `None`.  The `call`/callable branch is
outside the embedded fragment (no callables in `PyValue`). -/
def Ctx.lookup_default (ctx : Ctx) (name : String) : PyValue :=
  match ctx.default_map with
  | Option.none => .none
  | Option.some m =>
    match m.lookup name with
    | Option.none => .none
    | Option.some v => v

/-- `Parameter.get_default` (core.py lines 1457-1485): try
`ctx.lookup_default` first, fall back to the parameter's own `default`
when that yields `None`. -/
def Param.get_default (p : Param) (ctx : Ctx) : PyValue :=
  let value := ctx.lookup_default p.name
  if value.isNone then p.default else value

/-- Modelled from the spec: `Parameter.resolve_envvar_value` and
`Parameter.value_from_envvar` are absent from `src/`.  Per the spec
(section 4.3 step 2): if an environment-variable name is configured and the
variable is set and non-empty, its value is used; empty environment values
are treated as absent.  The environment is an association list. -/
def value_from_envvar (env : List (String × String)) (p : Param) : Option String :=
  match p.envvar with
  | Option.none => Option.none
  | Option.some n =>
    match env.lookup n with
    | Option.none => Option.none
    | Option.some s => if s = "" then Option.none else Option.some s

/-- Failure outcomes of the embedded fragments of the pipeline:
usage/missing-parameter errors, prompt activation, and the Python-level
`AttributeError`/`TypeError`/`ValueError`/`RuntimeError` slips the code
under `src/` can raise, plus the `Exit` control-flow signal raised by
`Context.exit`. -/
inductive ResolveErr where
  | missingParameter (name : String)
  | promptTriggered (name : String)
  | usageError (msg : String)
  | attributeError (attr : String)
  | typeError (msg : String)
  | valueError (msg : String)
  | runtimeError (msg : String)
  | exited (code : Int)
deriving Repr, DecidableEq

/-- Modelled from the spec: `Parameter.consume_value` /
`Parameter.process_value` and the per-parameter part of
`Command.parse_args` are absent from `src/`.  Per the spec (section 4.3
steps 1-6), a parameter's final value is: the command-line match if the
parser produced one; else the configured environment variable when set and
non-empty; else the context default map / static default (steps 3-4, which
are exactly the source-embedded `Param.get_default`); else a prompt when
configured and not in resilient-parsing mode; else a missing-parameter
error when required and not in resilient-parsing mode; else `None`. -/
def resolveValue (env : List (String × String)) (ctx : Ctx) (p : Param)
    (cliMatch : Option PyValue) : Except ResolveErr PyValue :=
  match cliMatch with
  | Option.some v => .ok v
  | Option.none =>
    match value_from_envvar env p with
    | Option.some s => .ok (.str s)
    | Option.none =>
      let d := p.get_default ctx
      if !d.isNone then .ok d
      else if p.hasPrompt && !ctx.resilient_parsing then
        .error (.promptTriggered p.name)
      else if p.required && !ctx.resilient_parsing then
        .error (.missingParameter p.name)
      else .ok .none

/-- Stable insertion: `x` is placed before the first element `y` with
`le x y`, so earlier-listed elements come first among equals. -/
def insertLe {α : Type} (le : α → α → Bool) (x : α) : List α → List α
  | [] => [x]
  | y :: ys => if le x y then x :: y :: ys else y :: insertLe le x ys

/-- Stable sort by a boolean total preorder `le`; for such a preorder the
result agrees with Python's stable `sorted`. -/
def stableSort {α : Type} (le : α → α → Bool) : List α → List α
  | [] => []
  | x :: xs => insertLe le x (stableSort le xs)

/-- Lexicographic strict comparison of character lists by code point,
Python's `<` on strings. -/
def charListLt : List Char → List Char → Bool
  | [], [] => false
  | [], _ :: _ => true
  | _ :: _, [] => false
  | c :: cs, d :: ds =>
    if c.toNat < d.toNat then true
    else if d.toNat < c.toNat then false
    else charListLt cs ds

/-- Python `s <= t` on strings. -/
def strLe (s t : String) : Bool := !charListLt t.data s.data

/-- Comparison of the tuples produced by `sort_key` below, as Python
compares them: first components first, then the second components within a
group (the mixed second-component cases cannot arise since equal first
components imply the same group). -/
def keyLe : Nat × (String ⊕ Nat) → Nat × (String ⊕ Nat) → Bool
  | (a, x), (b, y) =>
    if a ≠ b then decide (a < b)
    else
      match x, y with
      | .inl s, .inl t => strLe s t
      | .inr i, .inr j => decide (i ≤ j)
      | .inl _, .inr _ => true
      | .inr _, .inl _ => false

/-- `sort_key` inside `iter_params_for_processing` (core.py lines 74-78):
`(0, param.name)` for eager parameters, `(1, invocation_order.index(param))`
for the rest.  `.index` raises `ValueError` when the parameter is absent
from `invocation_order`, embedded as `Option.none`.  Parameters are
identified by their names (the source compares object identity; distinct
parameters of one command have distinct names). -/
def sort_key (invocation_order : List Param) (p : Param) :
    Option (Nat × (String ⊕ Nat)) :=
  if p.is_eager then Option.some (0, Sum.inl p.name)
  else
    match invocation_order.findIdx? (fun q => q.name == p.name) with
    | Option.some i => Option.some (1, Sum.inr i)
    | Option.none => Option.none

/-- `iter_params_for_processing` (core.py lines 69-80): Python's stable
`sorted(declaration_order, key=sort_key)`.  `Option.none` embeds the
`ValueError` escaping from `.index` when a non-eager parameter was not
matched by the parser. -/
def iter_params_for_processing (invocation_order declaration_order : List Param) :
    Option (List Param) :=
  match declaration_order.mapM
      (fun p => (sort_key invocation_order p).map (fun k => (p, k))) with
  | Option.none => Option.none
  | Option.some keyed =>
    Option.some ((stableSort (fun u v => keyLe u.2 v.2) keyed).map (·.1))

/-- Attributes computed by the flag-semantics fragment of `Option.__init__`
(core.py lines 1596-1643, in particular the claimed lines 1615-1637). -/
structure OptionInitResult where
  default : PyValue
  flag_value : PyValue
  is_flag : Bool
  flag_needs_value : Bool
deriving Repr

/-- The flag-semantics fragment of `Option.__init__` (core.py lines
1596-1643).  `defaultArg = Option.none` embeds `'default' not in attrs`;
`flag_valueArg = PyValue.none` embeds `flag_value=None`; `promptArg` is
whether the `prompt` argument is truthy (so the computed prompt text is not
`None`).  The `__debug__` consistency checks (lines 1649-1662) only raise
for configurations outside this fragment and are omitted, as is the
type-conversion attribute (types.py is not under `src/`). -/
def Option_init (promptArg : Bool) (prompt_required : Bool)
    (is_flagArg : Option Bool) (flag_valueArg : PyValue)
    (multiple count required : Bool) (defaultArg : Option PyValue)
    (secondary_opts : List String) : OptionInitResult :=
  let default_is_missing := defaultArg.isNone
  let default0 := defaultArg.getD .none
  let fnv0 := promptArg && !prompt_required
  let is_flag :=
    match is_flagArg with
    | Option.none =>
      if !flag_valueArg.isNone then true
      else if fnv0 then false
      else !secondary_opts.isEmpty
    | Option.some b => b
  let flag_needs_value :=
    if is_flagArg == Option.some false && !fnv0 then !flag_valueArg.isNone
    else fnv0
  let default1 :=
    if is_flag && default_is_missing && !required then
      (if multiple then PyValue.tuple [] else PyValue.bool false)
    else default0
  let flag_value :=
    if flag_valueArg.isNone then pyNot default1 else flag_valueArg
  let default2 :=
    if count && default_is_missing then PyValue.int 0 else default1
  { default := default2, flag_value := flag_value, is_flag := is_flag,
    flag_needs_value := flag_needs_value }

/-- Modelled from the spec: helper for `unpack_args` — the number of
trailing tokens reserved for the still-required fixed-arity positional
declarations `(nargs, required)` that follow an unbounded Argument. -/
def reservedAfter (rest : List (Int × Bool)) : Nat :=
  rest.foldl (fun acc nr => if nr.2 && decide (nr.1 > 0) then acc + nr.1.toNat else acc) 0

/-- Modelled from the spec: `parser.py` (`OptionParser` and its positional
unpacking `_unpack_args`) is absent from `src/`.  Per the spec (section
4.2): positional tokens are matched against the positional parameters in
declaration order; a fixed arity `n` consumes the next `n` tokens; an
Argument with `nargs = -1` greedily consumes all remaining positional
tokens except those reserved for still-required fixed-arity Arguments that
follow it.  Each declaration is `(nargs, required)`; the result is the
token list of each declaration in order, alongside the leftover tokens. -/
def unpack_args : List String → List (Int × Bool) → List (List String) × List String
  | toks, [] => ([], toks)
  | toks, (n, _req) :: rest =>
    if n = -1 then
      let keep := toks.length - reservedAfter rest
      let r := unpack_args (toks.drop keep) rest
      (toks.take keep :: r.1, r.2)
    else
      let r := unpack_args (toks.drop n.toNat) rest
      (toks.take n.toNat :: r.1, r.2)

/-- The teardown-relevant state of a `Context`: the `_depth` counter, the
close callbacks registered with `call_on_close`, the resources entered on
the `_exit_stack` via `with_resource`, and the log of cleanup actions
executed so far.  Callbacks and resources are identified by numbers. -/
structure CtxScope where
  depth : Int
  close_callbacks : List Nat
  resources : List Nat
  flushed : List Nat
deriving Repr, DecidableEq

/-- `Context.close` (core.py lines 418-426): run the close callbacks in
reverse registration order and clear them, then close the exit stack,
which exits the entered resources in reverse order. -/
def ctxClose (s : CtxScope) : CtxScope :=
  { s with close_callbacks := [],
           resources := [],
           flushed := s.flushed ++ s.close_callbacks.reverse ++ s.resources.reverse }

/-- `Context.__enter__` (core.py lines 276-279): increment `_depth`.  The
thread-local `push_context` is not modelled (globals.py is not under
`src/` and the claims do not concern it). -/
def ctxEnter (s : CtxScope) : CtxScope := { s with depth := s.depth + 1 }

/-- `Context.__exit__` (core.py lines 281-285): decrement `_depth` and run
`close` exactly when the depth has returned to zero. -/
def ctxExit (s : CtxScope) : CtxScope :=
  let s1 : CtxScope := { s with depth := s.depth - 1 }
  if s1.depth = 0 then ctxClose s1 else s1

/-- `k` re-entrant `__enter__` calls on the same context object. -/
def ctxEnterN : Nat → CtxScope → CtxScope
  | 0, s => s
  | k + 1, s => ctxEnterN k (ctxEnter s)

/-- `k` re-entrant `__exit__` calls on the same context object. -/
def ctxExitN : Nat → CtxScope → CtxScope
  | 0, s => s
  | k + 1, s => ctxExitN k (ctxExit s)

/-- `Context.scope` (core.py lines 287-331) wrapped around a body: at depth
zero it increments the depth, runs the body, then decrements and (when
`cleanup` is enabled) closes; at nonzero depth it only adjusts the depth
around the body, performing no setup or teardown. -/
def ctxScope (cleanup : Bool) (body : CtxScope → CtxScope) (s : CtxScope) :
    CtxScope :=
  if s.depth = 0 then
    let s1 := body { s with depth := s.depth + 1 }
    let s2 : CtxScope := { s1 with depth := s1.depth - 1 }
    if cleanup then ctxClose s2 else s2
  else
    let s1 := body { s with depth := s.depth + 1 }
    { s1 with depth := s1.depth - 1 }

/-- The attributes of a constructed `MultiCommand` relevant here
(`MultiCommand.__init__`, core.py lines 1070-1087). -/
structure MultiCmdAttrs where
  chain : Bool
  subcommand_metavar : String
  no_args_is_help : Bool
deriving Repr, DecidableEq

/-- `MultiCommand.__init__` (core.py lines 1070-1087): compute
`no_args_is_help` and `subcommand_metavar` defaults, then, in chain mode,
raise `RuntimeError` when the command's own parameter list contains an
optional (non-required) Argument. -/
def MultiCommand_init (params : List Param) (chain : Bool)
    (subcommand_metavarArg : Option String)
    (invoke_without_command : Bool) (no_args_is_helpArg : Option Bool) :
    Except ResolveErr MultiCmdAttrs :=
  let no_args_is_help := no_args_is_helpArg.getD (!invoke_without_command)
  let subcommand_metavar := subcommand_metavarArg.getD
    (if chain then "COMMAND1 [ARGS]... [COMMAND2 [ARGS]...]..."
     else "COMMAND [ARGS]...")
  if chain
      && params.any (fun p => p.param_type_name == "argument" && !p.required) then
    Except.error (.runtimeError
      "Multi commands in chain mode cannot have optional arguments.")
  else
    Except.ok { chain := chain, subcommand_metavar := subcommand_metavar,
                no_args_is_help := no_args_is_help }

/-- A child command as seen by `Group.add_command`: its (optional) name
and its parameter list. -/
structure ChildCmd where
  name : Option String
  params : List Param
deriving Repr

/-- The slice of a `Group` that `add_command` touches: the chain flag and
the name-to-command mapping. -/
structure GroupCmd where
  chain : Bool
  commands : List (String × ChildCmd)

/-- Python `dict` assignment `m[k] = v` on an association list. -/
def dictSet {β : Type} (m : List (String × β)) (k : String) (v : β) :
    List (String × β) :=
  if m.any (fun kv => kv.1 == k) then
    m.map (fun kv => if kv.1 == k then (k, v) else kv)
  else m ++ [(k, v)]

/-- Modelled from the spec: `_check_multicommand` is called by
`Group.add_command` (core.py line 1221) but is absent from `src/`.  Per
the spec ("Invariant: in chain mode, no child Argument may be optional"
and "must reject a sibling declared with an optional Argument at
registration time"): registering into a chain-mode multi command a child
that declares an optional (non-required) Argument raises
`RuntimeError`. -/
def _check_multicommand (baseChain : Bool) (cmd_params : List Param) :
    Except ResolveErr Unit :=
  if baseChain
      && cmd_params.any (fun p => p.param_type_name == "argument" && !p.required) then
    Except.error (.runtimeError
      "Multi commands in chain mode cannot have optional arguments.")
  else Except.ok ()

/-- `Group.add_command` (core.py lines 1214-1222): `name = name or
cmd.name` (an empty registration name is falsy and falls back to the
command's own name), `TypeError` when no name resolves, then
`_check_multicommand` and the `commands` map assignment. -/
def add_command (g : GroupCmd) (cmd : ChildCmd) (nameArg : Option String) :
    Except ResolveErr GroupCmd :=
  let nm : Option String :=
    match nameArg with
    | Option.some s => if s = "" then cmd.name else Option.some s
    | Option.none => cmd.name
  match nm with
  | Option.none => Except.error (.typeError "Command has no name.")
  | Option.some n =>
    match _check_multicommand g.chain cmd.params with
    | Except.error e => Except.error e
    | Except.ok _ => Except.ok { g with commands := dictSet g.commands n cmd }

/-- Modelled from the spec: exceptions.py is absent from `src/`.  The
exception kinds `BaseCommand.main` distinguishes: a `ClickException`
(reported usage/application error carrying its declared exit code), the
`Exit` control-flow signal raised by `Context.exit` (per the spec "not an
error per se, just a control-flow signal distinct from exceptions raised
by user code", hence a class of its own), `Abort`,
`KeyboardInterrupt`/`EOFError`, an `IOError` with `errno == EPIPE`, and
any other exception. -/
inductive PyExc where
  | clickException (exit_code : Int)
  | exitSignal (code : Int)
  | abort
  | keyboardInterrupt
  | eofError
  | ioErrorEPIPE
  | otherError (msg : String)
deriving Repr, DecidableEq

/-- Outcome of the command body that `main` wraps (`make_context` through
`invoke`): a normal return value or a raised exception. -/
inductive RunResult where
  | ok (rv : PyValue)
  | raised (e : PyExc)

/-- Observable outcome of `BaseCommand.main`: process termination with an
exit code (recording whether "Aborted!" was printed), a plain return (in
non-standalone mode), or an exception escaping `main` uncaught. -/
inductive ProcessOutcome where
  | exited (code : Int) (printedAborted : Bool)
  | returned (rv : PyValue)
  | uncaught (e : PyExc)
deriving Repr

/-- `BaseCommand.main` (core.py lines 767-801) as a function of the body's
outcome.  The inner `try` catches `EOFError`/`KeyboardInterrupt`
(re-raised as `Abort`), `ClickException` (shown, then
`sys.exit(e.exit_code)` in standalone mode, re-raised otherwise) and the
`EPIPE` `IOError` (`sys.exit(1)`); the outer `try` catches only `Abort`
(printing "Aborted!" and exiting 1 in standalone mode).  On a normal body
return in standalone mode the code calls `ctx.exit()`, which raises the
`Exit` signal (core.py lines 491-493); `main` has no handler for `Exit`,
so it escapes both `try` blocks. -/
def BaseCommand_main (standalone_mode : Bool) (body : RunResult) :
    ProcessOutcome :=
  let innerResult : Sum ProcessOutcome PyExc :=
    match body with
    | .ok rv =>
      if !standalone_mode then .inl (.returned rv)
      else .inr (.exitSignal 0)
    | .raised e =>
      match e with
      | .eofError => .inr .abort
      | .keyboardInterrupt => .inr .abort
      | .clickException c =>
        if !standalone_mode then .inr (.clickException c)
        else .inl (.exited c false)
      | .ioErrorEPIPE => .inl (.exited 1 false)
      | e2 => .inr e2
  match innerResult with
  | .inl out => out
  | .inr e =>
    match e with
    | .abort =>
      if !standalone_mode then .uncaught .abort
      else .exited 1 true
    | e2 => .uncaught e2

/-- Attribute record of a constructed plain `Command`
(`Command.__init__`, core.py lines 877-888).  `subcommand_metavar` is the
Python attribute dictionary entry: `Option.none` means the attribute was
never set on the object — plain `Command.__init__` does not set it, only
`MultiCommand.__init__` does (line 1081) — and reading it then raises
`AttributeError`. -/
structure CommandAttrs where
  name : String
  params : List Param := []
  options_metavar : String := "[OPTIONS]"
  add_help_option : Bool := true
  no_args_is_help : Bool := false
  hidden : Bool := false
  deprecated : Bool := false
  subcommand_metavar : Option (Option String) := Option.none
deriving Repr

/-- `Command.__init__` (core.py lines 877-888) with default keyword
arguments: stores the listed attributes and nothing else — in particular
it never sets `subcommand_metavar`. -/
def Command_init (name : String) (params : List Param) : CommandAttrs :=
  { name := name, params := params }

/-- The help option built by `Command.get_help_option` (core.py lines
926-944): `Option(['--help'], is_flag=True, is_eager=True,
expose_value=False, callback=show_help)`; by the present
`Option.__init__` its default is `False` and its `flag_value` is
`True`. -/
def helpOption : Param :=
  { name := "help", opts := ["--help"], param_type_name := "option",
    is_flag := true, is_eager := true, expose_value := false,
    flag_value := .bool true, default := .bool false,
    hasHelpCallback := true }

/-- Modelled from the spec: `Command.get_params` is absent from `src/`
(it is called by `collect_usage_pieces`, `format_options`,
`make_parser` and `shell_complete`).  Per the spec (section 6: a
configurable `--help` option on every Command; section 3: a flag
controlling the auto-added help option), it returns the declared
parameters plus the auto-added help option when enabled (no declared
parameter of the embedded commands shadows the help names). -/
def get_params (c : CommandAttrs) : List Param :=
  if c.add_help_option then c.params ++ [helpOption] else c.params

/-- Modelled from the spec: `Parameter.get_usage_pieces` is absent from
`src/`.  Per the spec's data model, only positional Arguments are shown
in the usage line, via their metavar; Options contribute nothing. -/
def get_usage_pieces (p : Param) : List String :=
  if p.param_type_name == "argument" then [p.name.toUpper] else []

/-- `Command.collect_usage_pieces` (core.py lines 907-916): start from
`options_metavar`, extend with each parameter's usage pieces, then read
`self.subcommand_metavar` and append it when not `None`.  Plain `Command`
objects do not possess that attribute, so the read raises
`AttributeError` for them. -/
def collect_usage_pieces (c : CommandAttrs) : Except ResolveErr (List String) :=
  let rv := [c.options_metavar] ++ (get_params c).flatMap get_usage_pieces
  match c.subcommand_metavar with
  | Option.none => Except.error (.attributeError "subcommand_metavar")
  | Option.some v =>
    Except.ok (match v with
               | Option.none => rv
               | Option.some sm => rv ++ [sm])

/-- `Command.get_usage` / `format_usage` (core.py lines 890-905): format
the pieces from `collect_usage_pieces` into the usage line handed to the
formatter; an exception raised while collecting propagates. -/
def get_usage (c : CommandAttrs) : Except ResolveErr String :=
  match collect_usage_pieces c with
  | Except.error e => Except.error e
  | Except.ok pieces =>
    Except.ok ("Usage: " ++ c.name ++ " " ++ String.intercalate " " pieces)

/-- A command object for the dispatch/completion flows: a leaf `Command`
or a `MultiCommand` with its chain flag and its (modelled, spec section 3)
name-to-child mapping. -/
inductive Cmd where
  | leaf (attrs : CommandAttrs)
  | multi (attrs : CommandAttrs) (chain : Bool) (subs : List (String × Cmd))

/-- The shared `Command` attribute record of either command kind. -/
def Cmd.attrs : Cmd → CommandAttrs
  | .leaf a => a
  | .multi a _ _ => a

/-- Whether a token looks like an option (starts with an option character
and is longer than the bare dash). -/
def looksLikeOption (tok : String) : Bool :=
  match tok.data with
  | '-' :: _ :: _ => true
  | _ => false

/-- Modelled from the spec: the tokenizer (`OptionParser.parse_args`,
parser.py) is absent from `src/`.  Per the spec (section 4.2), restricted
to what the embedded commands declare: `--` ends option processing and
leaves the rest positional; a token matching a registered option string is
a flag match (consuming nothing, yielding its `flag_value`) or consumes
the next token as its value ("option requires an argument" otherwise);
an unrecognized option-looking token is a usage error
(`ignore_unknown_options` is off everywhere here); the first positional
token ends option recognition (the multi-command
`allow_interspersed_args=False` discipline) and the remainder is the
leftover list used for subcommand dispatch.  Returns the matches as
`(parameter name, value)` pairs in match order, plus the leftovers. -/
def tokenizeOpts (params : List Param) :
    List String → Except ResolveErr (List (String × PyValue) × List String)
  | [] => Except.ok ([], [])
  | tok :: rest =>
    if tok = "--" then Except.ok ([], rest)
    else if looksLikeOption tok then
      match params.find? (fun p =>
          p.opts.contains tok || p.secondary_opts.contains tok) with
      | Option.some p =>
        if p.is_flag then
          match tokenizeOpts params rest with
          | Except.error e => Except.error e
          | Except.ok (ms, lf) => Except.ok ((p.name, p.flag_value) :: ms, lf)
        else
          match rest with
          | [] => Except.error (.usageError
              ("Option " ++ tok ++ " requires an argument."))
          | v :: rest2 =>
            match tokenizeOpts params rest2 with
            | Except.error e => Except.error e
            | Except.ok (ms, lf) => Except.ok ((p.name, .str v) :: ms, lf)
      | Option.none => Except.error (.usageError ("No such option: " ++ tok))
    else Except.ok ([], tok :: rest)

/-- Modelled from the spec (section 4.3): the processing order — all
`is_eager` parameters first in declaration order, then the others in match
order, falling back to declaration order for unmatched ones.  (The
present `iter_params_for_processing` of core.py deviates from this; claim
C2 settles that separately against the source.  `Command.parse_args`,
which applies the order, is itself absent from `src/`, so the modelled
parse below follows the spec's words.) -/
def specOrder (declaration : List Param) (matchedNames : List String) :
    List Param :=
  let eagerOnes := declaration.filter (·.is_eager)
  let nonEager := declaration.filter (fun p => !p.is_eager)
  let inMatch := matchedNames.filterMap
    (fun n => nonEager.find? (fun p => p.name == n))
  let unmatched := nonEager.filter (fun p => !matchedNames.contains p.name)
  eagerOnes ++ inMatch ++ unmatched

/-- Modelled from the spec: processing of one parameter inside
`Command.parse_args` (absent from `src/`): resolve the value (section 4.3
steps 1-6 via `resolveValue`), run the eager show-help action, and store
the value when `expose_value` is set.  The show-help action is the
source-embedded `show_help` callback of `Command.get_help_option` (core.py
lines 932-935): `if value and not ctx.resilient_parsing:
echo(ctx.get_help()); ctx.exit()`.  `ctx.get_help()` formats the help page
(`Command.format_help`, core.py lines 968-983), whose FIRST step is
`format_usage`, i.e. the source-embedded `get_usage` below — so for a
plain Command it raises `AttributeError("subcommand_metavar")` (see
`collect_usage_pieces`) before `ctx.exit()` is ever reached; the later
formatting steps (help text, option list, epilog rendering) are display
sinks that raise nothing for the embedded commands; only then does
`ctx.exit()` raise the `Exit` signal, embedded as `.exited 0`. -/
def processOne (env : List (String × String)) (resilient : Bool)
    (cmdAttrs : CommandAttrs) (matched : List (String × PyValue)) (p : Param) :
    Except ResolveErr (Option (String × PyValue)) :=
  match resolveValue env ⟨Option.none, resilient⟩ p (matched.lookup p.name) with
  | Except.error e => Except.error e
  | Except.ok v =>
    if p.hasHelpCallback && pyTruthy v && !resilient then
      match get_usage cmdAttrs with
      | Except.error e => Except.error e
      | Except.ok _ => Except.error (.exited 0)
    else if p.expose_value then Except.ok (Option.some (p.name, v))
    else Except.ok Option.none

/-- Modelled from the spec: the parameter-processing half of
`Command.parse_args` (absent from `src/`): process every parameter in the
spec's order, accumulating the exposed values.  `cmdAttrs` is the owning
command's attribute record, read by the show-help action. -/
def processParams (env : List (String × String)) (resilient : Bool)
    (cmdAttrs : CommandAttrs) (declaration : List Param)
    (matched : List (String × PyValue)) :
    Except ResolveErr (List (String × PyValue)) :=
  (specOrder declaration (matched.map (·.1))).foldlM
    (fun acc p =>
      match processOne env resilient cmdAttrs matched p with
      | Except.error e => Except.error e
      | Except.ok (Option.some kv) => Except.ok (acc ++ [kv])
      | Except.ok Option.none => Except.ok acc) []

/-- The slice of a `Context` used by the completion resolver: the owning
command, the resilient flag, the resolved parameter values, the leftover
tokens and `protected_args`. -/
structure CtxR where
  command : Cmd
  resilient_parsing : Bool
  params : List (String × PyValue)
  args : List String
  protected_args : List String

/-- `BaseCommand.make_context` (core.py lines 656-684) combined with the
spec-modelled `Command.parse_args` (absent from `src/`): build the context
with the given resilient flag and run the parse, storing resolved values
and leftovers on the context.  (`protected_args` is populated by the
absent `MultiCommand.parse_args`; the embedded commands declare no
unbounded positional Arguments, so it stays empty.) -/
def make_context (env : List (String × String)) (cmd : Cmd)
    (args : List String) (resilient : Bool) : Except ResolveErr CtxR :=
  let ps := get_params cmd.attrs
  match tokenizeOpts ps args with
  | Except.error e => Except.error e
  | Except.ok (matched, leftover) =>
    match processParams env resilient cmd.attrs ps matched with
    | Except.error e => Except.error e
    | Except.ok stored =>
      Except.ok { command := cmd, resilient_parsing := resilient,
                  params := stored, args := leftover, protected_args := [] }

/-- Modelled from the spec: `MultiCommand.resolve_command` is absent from
`src/`.  Per the spec (section 4.4): the first leftover token names the
subcommand, looked up in the name-to-command mapping; an unknown name is
reported as a usage error naming the attempted name, except in
resilient-parsing mode (section 7) where no error is raised and no
command is returned; the remaining tokens are the subcommand's argv. -/
def resolve_command (resilient : Bool) (subs : List (String × Cmd))
    (args : List String) :
    Except ResolveErr (String × Option Cmd × List String) :=
  match args with
  | [] => Except.error (.usageError "Missing command.")
  | name :: rest =>
    match subs.lookup name with
    | Option.some c => Except.ok (name, Option.some c, rest)
    | Option.none =>
      if resilient then Except.ok (name, Option.none, rest)
      else Except.error (.usageError ("No such command " ++ name ++ "."))

/-- The dispatch loop of `_resolve_context` (shell_completion.py lines
265-287): while tokens remain and the current command is a multi command,
resolve the next subcommand and build its context with
`resilient_parsing=True`; in chain mode the parent context keeps
dispatching (`ctx.command = cmd`).  `fuel` bounds the loop (each step
consumes at least the subcommand name). -/
def resolveContextLoop (env : List (String × String)) :
    Nat → CtxR → List String → Except ResolveErr CtxR
  | 0, ctx, _ => Except.ok ctx
  | _ + 1, ctx, [] => Except.ok ctx
  | fuel + 1, ctx, a :: as0 =>
    match ctx.command with
    | .leaf _ => Except.ok ctx
    | .multi _ chain subs =>
      if !chain then
        match resolve_command ctx.resilient_parsing subs (a :: as0) with
        | Except.error e => Except.error e
        | Except.ok (_, Option.none, _) => Except.ok ctx
        | Except.ok (_, Option.some cmd, rest) =>
          match make_context env cmd rest true with
          | Except.error e => Except.error e
          | Except.ok subCtx =>
            resolveContextLoop env fuel subCtx
              (subCtx.protected_args ++ subCtx.args)
      else
        match resolve_command ctx.resilient_parsing subs (a :: as0) with
        | Except.error e => Except.error e
        | Except.ok (_, Option.none, _) => Except.ok ctx
        | Except.ok (_, Option.some cmd, rest) =>
          match make_context env cmd rest true with
          | Except.error e => Except.error e
          | Except.ok subCtx =>
            resolveContextLoop env fuel { ctx with command := cmd }
              (subCtx.protected_args ++ subCtx.args)

/-- `_resolve_context` (shell_completion.py lines 254-287).  The root
context is built at line 263 with only the caller's `ctx_args` — which in
the completion path are empty, so WITHOUT `resilient_parsing=True` —
while the child contexts at lines 273 and 281 do pass it.  As in the
source, the loop starts from the caller's `args` list (the source never
reassigns `args` after building the root context). -/
def _resolve_context (env : List (String × String)) (cli : Cmd)
    (args : List String) : Except ResolveErr CtxR :=
  match make_context env cli args false with
  | Except.error e => Except.error e
  | Except.ok ctx => resolveContextLoop env (args.length + 1) ctx args

/-- `_start_of_option` (shell_completion.py lines 227-229): `value and
value[0] in ctx.command.params.get('_opt_prefixes', ['-'])`.  An empty
`value` short-circuits to falsy; otherwise `ctx.command.params` is the
command's parameter LIST, and Python lists have no `.get` method, so the
lookup raises `AttributeError`. -/
def _start_of_option (value : String) : Except ResolveErr Bool :=
  if value = "" then Except.ok false
  else Except.error (.attributeError "get")

/-- The `for index, arg in enumerate(reversed(args))` loop of
`_is_incomplete_option` (shell_completion.py lines 245-250): stop once
`index + 1 > nargs`; otherwise test `_start_of_option(arg)` and remember
the latest hit. -/
def lastOptionScan (nargs : Int) :
    Nat → List String → Except ResolveErr (Option String)
  | _, [] => Except.ok Option.none
  | index, arg :: rest =>
    if (index + 1 : Int) > nargs then Except.ok Option.none
    else
      match _start_of_option arg with
      | Except.error e => Except.error e
      | Except.ok b =>
        match lastOptionScan nargs (index + 1) rest with
        | Except.error e => Except.error e
        | Except.ok r =>
          Except.ok (match r with
                     | Option.some x => Option.some x
                     | Option.none => if b then Option.some arg else Option.none)

/-- `_is_incomplete_option` (shell_completion.py lines 231-252): only
non-flag Options qualify; scan the preceding args (reversed) for the last
option-looking token within the option's arity and check it is one of the
option's names. -/
def _is_incomplete_option (args : List String) (p : Param) :
    Except ResolveErr Bool :=
  if !(p.param_type_name == "option") then Except.ok false
  else if p.is_flag then Except.ok false
  else
    match lastOptionScan p.nargs 0 args.reverse with
    | Except.error e => Except.error e
    | Except.ok Option.none => Except.ok false
    | Except.ok (Option.some lastOpt) => Except.ok (p.opts.contains lastOpt)

/-- `_is_incomplete_argument` (shell_completion.py lines 206-225): an
Argument still willing to accept values — no value resolved yet, or a
tuple shorter than its arity (always willing when unbounded). -/
def _is_incomplete_argument (ctxParams : List (String × PyValue)) (p : Param) :
    Bool :=
  if !(p.param_type_name == "argument") then false
  else
    match ctxParams.lookup p.name with
    | Option.none => true
    | Option.some v =>
      match v with
      | .none => true
      | .tuple xs => decide (p.nargs = -1) || decide ((xs.length : Int) < p.nargs)
      | _ => false

/-- The object `_resolve_incomplete` hands the completion to: a Parameter
or the context's Command. -/
inductive CompletionTarget where
  | param (p : Param)
  | command (c : Cmd)

/-- `_resolve_incomplete` (shell_completion.py lines 289-308): the first
parameter that is an incomplete option, else the first incomplete
argument, else the context's command (`Command.get_params` is absent from
`src/` and modelled from the spec). -/
def _resolve_incomplete (ctx : CtxR) (args : List String)
    (incomplete : String) :
    Except ResolveErr (CompletionTarget × String) :=
  let params := get_params ctx.command.attrs
  match params.findM? (fun p => _is_incomplete_option args p) with
  | Except.error e => Except.error e
  | Except.ok (Option.some p) => Except.ok (.param p, incomplete)
  | Except.ok Option.none =>
    match params.find? (fun p => _is_incomplete_argument ctx.params p) with
    | Option.some p => Except.ok (.param p, incomplete)
    | Option.none => Except.ok (.command ctx.command, incomplete)

/-- `CompletionItem` (shell_completion.py lines 44-71): completion value,
display type and help text; unknown attributes resolve to `None` through
`__getattr__`. -/
structure CompletionItem where
  value : String
  type : String := "plain"
  help : Option String := Option.none
deriving Repr, DecidableEq

/-- `Parameter.shell_complete` (core.py lines 1511-1532): use the custom
completer when one was given (a list of strings is wrapped into
`CompletionItem`s), else delegate to the type's completion.  Modelled
from the spec for the latter: types.py is absent from `src/`, and per the
spec only filesystem-path types contribute native completion hints — a
plain option type offers no candidates.  (Custom completers are embedded
as constant candidate lists; no embedded command declares one.) -/
def Param.shell_complete (p : Param) : List CompletionItem :=
  match p.customComplete with
  | Option.some vs => vs.map (fun v => { value := v })
  | Option.none => []

/-- The filter of `Command.shell_complete` (core.py line 1040):
`[c for c in results if c.start_with(incomplete)]`.  `CompletionItem` has
no `start_with` attribute, so `__getattr__` (shell_completion.py lines
70-71) yields `None` and calling it raises `TypeError`; only an empty
result list survives the filter. -/
def filterStartWith (results : List CompletionItem) :
    Except ResolveErr (List CompletionItem) :=
  match results with
  | [] => Except.ok []
  | _ => Except.error (.typeError "NoneType object is not callable")

/-- `Command.shell_complete` (core.py lines 1018-1040): collect each
parameter's own value completions via `param.shell_complete`; for multi
commands the source then calls `_complete_visible_commands(self,
incomplete)` — but that helper (lines 44-55) expects a Context and reads
`ctx.command`, and on a `Group` object the `command` attribute is the
decorator method (core.py line 1224), never a `MultiCommand` instance, so
the `isinstance` guard is false and NO subcommand names are produced (a
multi command that is not a `Group` would raise `AttributeError` on the
missing `command` attribute instead; the embedded multi commands carry a
name-to-command mapping and so stand for `Group`s).  Finally the results
are filtered with the non-existent `CompletionItem.start_with`.  Neither
option names nor subcommand names are ever offered. -/
def Cmd.shell_complete (c : Cmd) (_incomplete : String) :
    Except ResolveErr (List CompletionItem) :=
  let fromParams := (get_params c.attrs).flatMap (fun p => p.shell_complete)
  let fromSubs : List CompletionItem :=
    match c with
    | .multi _ _ _ => []
    | .leaf _ => []
  filterStartWith (fromParams ++ fromSubs)

/-- `ShellComplete.get_completions` (shell_completion.py lines 133-143):
resolve the context for the completed args, find the object handling the
incomplete token, and ask it for completions. -/
def get_completions (env : List (String × String)) (cli : Cmd)
    (args : List String) (incomplete : String) :
    Except ResolveErr (List CompletionItem) :=
  match _resolve_context env cli args with
  | Except.error e => Except.error e
  | Except.ok ctx =>
    match _resolve_incomplete ctx args incomplete with
    | Except.error e => Except.error e
    | Except.ok (.param p, _) => Except.ok p.shell_complete
    | Except.ok (.command c, inc2) => c.shell_complete inc2

end Click

/-- C1: for a Parameter with static default `D`, a configured environment
variable set to a non-empty value `E`, and an explicit command-line value
`C`, the value resolution chain resolves to `C`; with the command-line
value removed it resolves to `E`; with the environment variable
additionally unset it resolves to `D`. -/
theorem resolution_chain_precedence (D : Click.PyValue) (E C : String)
    (hD : D.isNone = false) (hE : E ≠ "") :
    let p : Click.Param :=
      { name := "x", opts := ["--x"], param_type_name := "option",
        default := D, envvar := Option.some "MYPROG_X" }
    let ctx : Click.Ctx := {}
    Click.resolveValue [("MYPROG_X", E)] ctx p (Option.some (.str C))
        = Except.ok (.str C)
    ∧ Click.resolveValue [("MYPROG_X", E)] ctx p Option.none
        = Except.ok (.str E)
    ∧ Click.resolveValue [] ctx p Option.none = Except.ok D := by
  refine ⟨rfl, ?_, ?_⟩
  · simp [Click.resolveValue, Click.value_from_envvar, List.lookup, hE]
  · cases D with
    | none => simp [Click.PyValue.isNone] at hD
    | bool b => rfl
    | str s => rfl
    | int n => rfl
    | tuple xs => rfl

/-- Witness for C1 at concrete inputs `D = "d"`, `E = "e"`, `C = "c"`. -/
theorem resolution_chain_precedence_witness :
    (Click.PyValue.str "d").isNone = false ∧ "e" ≠ "" ∧
    (Click.resolveValue [("MYPROG_X", "e")] {}
      { name := "x", opts := ["--x"], param_type_name := "option",
        default := Click.PyValue.str "d", envvar := Option.some "MYPROG_X" }
      (Option.some (.str "c")) = Except.ok (.str "c")
    ∧ Click.resolveValue [("MYPROG_X", "e")] {}
      { name := "x", opts := ["--x"], param_type_name := "option",
        default := Click.PyValue.str "d", envvar := Option.some "MYPROG_X" }
      Option.none = Except.ok (.str "e")
    ∧ Click.resolveValue [] {}
      { name := "x", opts := ["--x"], param_type_name := "option",
        default := Click.PyValue.str "d", envvar := Option.some "MYPROG_X" }
      Option.none = Except.ok (Click.PyValue.str "d")) :=
  ⟨rfl, by decide,
    resolution_chain_precedence (Click.PyValue.str "d") "e" "c" rfl (by decide)⟩

/-- C2 (code bug): the claim says parameters are processed with all
`is_eager` parameters first in declaration order, then the rest in the
parser's match order, falling back to declaration order for unmatched
ones.  The source instead sorts eager parameters alphabetically by name
(here `alpha` before `beta` although `beta` was declared first), and for a
non-eager parameter absent from the invocation order
`invocation_order.index(param)` raises `ValueError` instead of falling
back to declaration order (embedded as `Option.none`). -/
theorem iter_params_order_code_bug :
    Click.iter_params_for_processing []
        [{ name := "beta", opts := ["--beta"], param_type_name := "option",
           is_eager := true },
         { name := "alpha", opts := ["--alpha"], param_type_name := "option",
           is_eager := true }]
      = Option.some
        [{ name := "alpha", opts := ["--alpha"], param_type_name := "option",
           is_eager := true },
         { name := "beta", opts := ["--beta"], param_type_name := "option",
           is_eager := true }]
    ∧ Click.iter_params_for_processing []
        [{ name := "zeta", opts := ["--zeta"], param_type_name := "option" }]
      = Option.none :=
  ⟨rfl, rfl⟩

/-- C10: an Option constructed with flag semantics (`is_flag=True` or
inferred from secondary opts), not required and with no explicit default,
gets default `False` (the empty tuple when `multiple=True`) and, when no
`flag_value` is given, `flag_value = not default = True`; omitting the
flag resolves the parameter to that default and supplying it resolves to
`True`. -/
theorem flag_option_default_and_flag_value (multiple : Bool)
    (secondary_opts : List String) (is_flagArg : Option Bool)
    (hFlag : (Click.Option_init false true is_flagArg Click.PyValue.none
        multiple false false Option.none secondary_opts).is_flag = true) :
    let r := Click.Option_init false true is_flagArg Click.PyValue.none
      multiple false false Option.none secondary_opts
    r.is_flag = true
    ∧ r.default
        = (if multiple then Click.PyValue.tuple [] else Click.PyValue.bool false)
    ∧ r.flag_value = Click.PyValue.bool true
    ∧ Click.resolveValue [] {}
        { name := "flag", opts := ["--flag"], param_type_name := "option",
          default := r.default, is_flag := r.is_flag, flag_value := r.flag_value }
        Option.none = Except.ok r.default
    ∧ Click.resolveValue [] {}
        { name := "flag", opts := ["--flag"], param_type_name := "option",
          default := r.default, is_flag := r.is_flag, flag_value := r.flag_value }
        (Option.some r.flag_value)
        = Except.ok (Click.PyValue.bool true) := by
  cases is_flagArg with
  | some b =>
    have hb : b = true := by
      simpa [Click.Option_init, Click.PyValue.isNone] using hFlag
    subst hb
    cases multiple <;>
      simp [Click.Option_init, Click.resolveValue, Click.value_from_envvar,
        Click.Param.get_default, Click.Ctx.lookup_default, Click.PyValue.isNone,
        Click.pyNot, Click.pyTruthy]
  | none =>
    have hs : secondary_opts.isEmpty = false := by
      simpa [Click.Option_init, Click.PyValue.isNone] using hFlag
    cases secondary_opts with
    | nil => simp at hs
    | cons a as =>
      cases multiple <;>
        simp [Click.Option_init, Click.resolveValue, Click.value_from_envvar,
          Click.Param.get_default, Click.Ctx.lookup_default, Click.PyValue.isNone,
          Click.pyNot, Click.pyTruthy]

/-- Witness for C10 at `is_flag=True`, `multiple=False`, no secondary
opts. -/
theorem flag_option_default_and_flag_value_witness :
    (Click.Option_init false true (Option.some true) Click.PyValue.none
        false false false Option.none []).is_flag = true
    ∧ (let r := Click.Option_init false true (Option.some true)
          Click.PyValue.none false false false Option.none []
       r.is_flag = true
       ∧ r.default
           = (if false then Click.PyValue.tuple [] else Click.PyValue.bool false)
       ∧ r.flag_value = Click.PyValue.bool true
       ∧ Click.resolveValue [] {}
           { name := "flag", opts := ["--flag"], param_type_name := "option",
             default := r.default, is_flag := r.is_flag, flag_value := r.flag_value }
           Option.none = Except.ok r.default
       ∧ Click.resolveValue [] {}
           { name := "flag", opts := ["--flag"], param_type_name := "option",
             default := r.default, is_flag := r.is_flag, flag_value := r.flag_value }
           (Option.some r.flag_value)
           = Except.ok (Click.PyValue.bool true)) :=
  ⟨rfl,
    flag_option_default_and_flag_value false [] (Option.some true) rfl⟩

/-- C3: with a required `nargs=-1` Argument followed by two required
fixed-arity (`nargs=1`) Arguments, the positional tokens `[a, b, c, d, e]`
are split so that exactly the 2 trailing tokens are reserved for the fixed
Arguments and the sequence `(a, b, c)` goes to the unbounded Argument. -/
theorem nargs_unbounded_reserves_trailing (a b c d e : String) :
    Click.unpack_args [a, b, c, d, e] [(-1, true), (1, true), (1, true)]
      = ([[a, b, c], [d], [e]], []) := rfl

theorem ctxEnterN_depth (k : Nat) (s : Click.CtxScope) :
    Click.ctxEnterN k s
      = { s with depth := s.depth + k } := by
  induction k generalizing s with
  | zero => simp [Click.ctxEnterN]
  | succ n ih =>
    rw [Click.ctxEnterN, ih]
    simp [Click.ctxEnter]
    omega

theorem ctxExitN_above_zero (j : Nat) :
    ∀ (d : Int) (cb rs fl : List Nat), (j : Int) < d →
      Click.ctxExitN j ⟨d, cb, rs, fl⟩ = ⟨d - j, cb, rs, fl⟩ := by
  induction j with
  | zero => intro d cb rs fl _; simp [Click.ctxExitN]
  | succ n ih =>
    intro d cb rs fl h
    rw [Click.ctxExitN]
    have h1 : ¬(d - 1 = 0) := by omega
    have hstep : Click.ctxExit ⟨d, cb, rs, fl⟩ = ⟨d - 1, cb, rs, fl⟩ := by
      simp [Click.ctxExit, h1]
    rw [hstep, ih (d - 1) cb rs fl (by omega)]
    have hc : d - 1 - (n : Int) = d - ((n + 1 : Nat) : Int) := by
      push_cast; ring
    rw [hc]

theorem ctxExitN_add (a b : Nat) (s : Click.CtxScope) :
    Click.ctxExitN (a + b) s = Click.ctxExitN b (Click.ctxExitN a s) := by
  induction a generalizing s with
  | zero => simp [Click.ctxExitN]
  | succ n ih =>
    have : n + 1 + b = (n + b) + 1 := by omega
    rw [show n + 1 + b = n + b + 1 by omega]
    rw [Click.ctxExitN, Click.ctxExitN, ih]

/-- C9: entering and exiting the same Context re-entrantly adjusts the
depth counter; the cleanup registry (close callbacks and entered
resources) is flushed exactly once, when the nesting depth returns to
zero; exits at nonzero depth perform no teardown, and `scope` entry/exit
at nonzero depth performs no setup or teardown either. -/
theorem context_teardown_once (k j : Nat) (cb rs : List Nat)
    (hk : 1 ≤ k) (hj : j < k) :
    (Click.ctxExitN j (Click.ctxEnterN k ⟨0, cb, rs, []⟩)
        = ⟨(k : Int) - j, cb, rs, []⟩)
    ∧ (Click.ctxExitN k (Click.ctxEnterN k ⟨0, cb, rs, []⟩)
        = ⟨0, [], [], cb.reverse ++ rs.reverse⟩)
    ∧ (∀ s : Click.CtxScope, s.depth ≠ 0 →
        Click.ctxScope true (fun t => t) s = s) := by
  have henter : Click.ctxEnterN k (⟨0, cb, rs, []⟩ : Click.CtxScope)
      = ⟨(k : Int), cb, rs, []⟩ := by
    rw [ctxEnterN_depth]; simp
  refine ⟨?_, ?_, ?_⟩
  · rw [henter, ctxExitN_above_zero j ((k : Int)) cb rs [] (by omega)]
  · rw [henter]
    have hsplit : Click.ctxExitN k (⟨(k : Int), cb, rs, []⟩ : Click.CtxScope)
        = Click.ctxExitN 1 (Click.ctxExitN (k - 1) ⟨(k : Int), cb, rs, []⟩) := by
      rw [← ctxExitN_add]
      congr 1
      omega
    rw [hsplit, ctxExitN_above_zero (k - 1) ((k : Int)) cb rs [] (by omega)]
    have hone : (k : Int) - ((k - 1 : Nat) : Int) = 1 := by omega
    rw [hone]
    simp [Click.ctxExitN, Click.ctxExit, Click.ctxClose]
  · intro s hs
    simp only [Click.ctxScope, if_neg hs]
    simp

/-- Witness for C9 at `k = 2` nesting levels, `j = 1` inner exit, two
close callbacks and one entered resource. -/
theorem context_teardown_once_witness :
    1 ≤ 2 ∧ 1 < 2 ∧
    ((Click.ctxExitN 1 (Click.ctxEnterN 2 ⟨0, [10, 11], [20], []⟩)
        = ⟨(2 : Int) - 1, [10, 11], [20], []⟩)
    ∧ (Click.ctxExitN 2 (Click.ctxEnterN 2 ⟨0, [10, 11], [20], []⟩)
        = ⟨0, [], [], [10, 11].reverse ++ [20].reverse⟩)
    ∧ (∀ s : Click.CtxScope, s.depth ≠ 0 →
        Click.ctxScope true (fun t => t) s = s)) :=
  ⟨by decide, by decide,
    context_teardown_once 2 1 [10, 11] [20] (by decide) (by decide)⟩

/-- C6 (code bug): in standalone mode, a reported usage/application error
(`ClickException`) does exit with its declared code and a user
interrupt/EOF does print "Aborted!" and exit 1 — but a successful run does
not terminate with exit code 0 and an explicit exit request does not
terminate with the requested code: `ctx.exit()` raises the `Exit` signal
and `main` has no handler for it, so `Exit` escapes `main` uncaught
instead of being converted into process termination. -/
theorem main_standalone_exit_codes :
    Click.BaseCommand_main true (.ok Click.PyValue.none)
      = Click.ProcessOutcome.uncaught (Click.PyExc.exitSignal 0)
    ∧ Click.BaseCommand_main true (.raised (.exitSignal 3))
      = Click.ProcessOutcome.uncaught (Click.PyExc.exitSignal 3)
    ∧ Click.BaseCommand_main true (.raised (.clickException 2))
      = Click.ProcessOutcome.exited 2 false
    ∧ Click.BaseCommand_main true (.raised .keyboardInterrupt)
      = Click.ProcessOutcome.exited 1 true
    ∧ Click.BaseCommand_main true (.raised .eofError)
      = Click.ProcessOutcome.exited 1 true :=
  ⟨rfl, rfl, rfl, rfl, rfl⟩

/-- C7: a chain-mode MultiCommand whose own parameter list contains an
optional (non-required) Argument is rejected at construction time with
`RuntimeError`, and registering a child command containing an optional
Argument into a chain-mode group is rejected at registration time. -/
theorem chain_optional_argument_rejected (ps : List Click.Param)
    (child : Click.ChildCmd)
    (hps : ∃ p ∈ ps, p.param_type_name = "argument" ∧ p.required = false)
    (hchild : ∃ p ∈ child.params,
      p.param_type_name = "argument" ∧ p.required = false) :
    Click.MultiCommand_init ps true Option.none false Option.none
      = Except.error (Click.ResolveErr.runtimeError
          "Multi commands in chain mode cannot have optional arguments.")
    ∧ ∀ g : Click.GroupCmd, g.chain = true →
        Click.add_command g child (Option.some "sub")
          = Except.error (Click.ResolveErr.runtimeError
              "Multi commands in chain mode cannot have optional arguments.") := by
  have hany : ∀ (qs : List Click.Param),
      (∃ p ∈ qs, p.param_type_name = "argument" ∧ p.required = false) →
      qs.any (fun p => p.param_type_name == "argument" && !p.required) = true := by
    intro qs hqs
    rcases hqs with ⟨p, hmem, h1, h2⟩
    exact List.any_eq_true.mpr ⟨p, hmem, by simp [h1, h2]⟩
  constructor
  · simp [Click.MultiCommand_init, hany ps hps]
  · intro g hg
    simp [Click.add_command, Click._check_multicommand, hg,
      hany child.params hchild]

/-- Witness for C7: a chain-mode multi command / group and a child, each
declaring an optional Argument named `src`. -/
theorem chain_optional_argument_rejected_witness :
    (∃ p ∈ [{ name := "src", param_type_name := "argument",
              required := false : Click.Param }],
        p.param_type_name = "argument" ∧ p.required = false)
    ∧ (∃ p ∈ (Click.ChildCmd.mk (Option.some "sub")
          [{ name := "src", param_type_name := "argument",
             required := false : Click.Param }]).params,
        p.param_type_name = "argument" ∧ p.required = false)
    ∧ (Click.MultiCommand_init
          [{ name := "src", param_type_name := "argument",
             required := false : Click.Param }]
          true Option.none false Option.none
        = Except.error (Click.ResolveErr.runtimeError
            "Multi commands in chain mode cannot have optional arguments.")
      ∧ ∀ g : Click.GroupCmd, g.chain = true →
          Click.add_command g
              (Click.ChildCmd.mk (Option.some "sub")
                [{ name := "src", param_type_name := "argument",
                   required := false : Click.Param }])
              (Option.some "sub")
            = Except.error (Click.ResolveErr.runtimeError
                "Multi commands in chain mode cannot have optional arguments.")) :=
  ⟨⟨_, List.mem_singleton.mpr rfl, rfl, rfl⟩,
   ⟨_, List.mem_singleton.mpr rfl, rfl, rfl⟩,
   chain_optional_argument_rejected _ _
     ⟨_, List.mem_singleton.mpr rfl, rfl, rfl⟩
     ⟨_, List.mem_singleton.mpr rfl, rfl, rfl⟩⟩

/-- C8 (code bug): formatting the usage/help of a plain `Command` does not
succeed: `collect_usage_pieces` reads `self.subcommand_metavar`, an
attribute only `MultiCommand.__init__` sets, so `get_usage` (and hence
`format_usage`/`format_help`) raises `AttributeError` for every plain
Command instead of producing the documented option surface. -/
theorem usage_formatting_attribute_error :
    Click.collect_usage_pieces (Click.Command_init "cli" [])
      = Except.error (Click.ResolveErr.attributeError "subcommand_metavar")
    ∧ Click.get_usage (Click.Command_init "cli" [])
      = Except.error (Click.ResolveErr.attributeError "subcommand_metavar")
    ∧ Click.get_usage (Click.Command_init "cli"
        [{ name := "count", opts := ["--count"],
           param_type_name := "option" }])
      = Except.error (Click.ResolveErr.attributeError "subcommand_metavar") :=
  ⟨rfl, rfl, rfl⟩

/-- C4 (code bug): the completion resolver does NOT build the root
context in resilient-parsing mode — `_resolve_context` passes only the
(empty) `ctx_args` at line 263, so `resilient_parsing` is `False` there,
contradicting the claim and the function's own docstring ("it doesn't
trigger input prompts or callbacks").  Consequently: a required unset
root parameter raises a missing-parameter error; the eager show-help
action runs — on a plain-Command root its `echo(ctx.get_help())` step
crashes with `AttributeError("subcommand_metavar")` inside
`collect_usage_pieces` (the C8 bug) before `ctx.exit()`, while on a Group
root (whose `subcommand_metavar` is set by `MultiCommand.__init__`) the
help is echoed and `ctx.exit()` raises the `Exit` signal; and prompts of
prompt-configured options trigger. -/
theorem resolve_context_not_resilient :
    Click._resolve_context []
        (Click.Cmd.leaf { name := "cli",
                          params := [{ name := "x", opts := ["--x"],
                                       param_type_name := "option",
                                       required := true }] })
        []
      = Except.error (Click.ResolveErr.missingParameter "x")
    ∧ Click._resolve_context []
          (Click.Cmd.leaf { name := "cli", params := [] }) ["--help"]
      = Except.error (Click.ResolveErr.attributeError "subcommand_metavar")
    ∧ Click._resolve_context []
          (Click.Cmd.multi
            { name := "prog",
              subcommand_metavar :=
                Option.some (Option.some "COMMAND [ARGS]...") }
            false [])
          ["--help"]
      = Except.error (Click.ResolveErr.exited 0)
    ∧ Click._resolve_context []
          (Click.Cmd.leaf { name := "cli",
                            params := [{ name := "x", opts := ["--x"],
                                         param_type_name := "option",
                                         hasPrompt := true }] })
          []
      = Except.error (Click.ResolveErr.promptTriggered "x") :=
  ⟨rfl, rfl, rfl, rfl⟩

/-- C5 (code bug): completing `prog sub --fla` where `sub` declares
`--flag` does not yield `--flag`.  The resolver crashes with
`AttributeError` (`_start_of_option` calls `.get` on the command's
parameter list), and even `Command.shell_complete` itself, reached
directly, offers no option names at all — it only aggregates parameter
value completions, which are empty here. -/
theorem completion_no_option_names :
    Click.get_completions []
        (Click.Cmd.multi { name := "prog" } false
          [("sub",
            Click.Cmd.leaf { name := "sub",
                             params := [{ name := "flag", opts := ["--flag"],
                                          param_type_name := "option" }] })])
        ["sub"] "--fla"
      = Except.error (Click.ResolveErr.attributeError "get")
    ∧ (Click.Cmd.leaf { name := "sub",
                        params := [{ name := "flag", opts := ["--flag"],
                                     param_type_name := "option" }] }).shell_complete
          "--fla"
      = Except.ok [] :=
  ⟨rfl, rfl⟩
